import Mathlib

/-!
Verification of the RAG-Chatbot-with-sources service against its
natural-language specification.

The development shallowly embeds the relevant parts of the repository:

- utils/services.py: the WordPress fetcher get_wordpress_api_json and the
  chunking step of data_loader;
- utils/memory_management.py: the ManageMemory session-history class;
- utils/middleware.py: the basic-auth middleware;
- utils/models.py: the request/response models;
- app.py: the POST /upload handler upload_data.

External network and store behaviour (what the WordPress API answers, whether
the Redis connection fails) is passed in as explicit data; Python exceptions
are modelled as values of type PyError, and a fallible Python function of
result type A becomes a Lean function into Except PyError A. Store mutations
are modelled as explicit operation traces so that claims about what was (not)
mutated are statements about the trace.
-/

set_option linter.unusedVariables false

/-- Kind of a raised Python exception: the built-in exception class that was
instantiated at the raise site. -/
inductive ExcKind where
  | keyError
  | typeError
  | nameError
  | exception
deriving DecidableEq, Repr

/-- Model of a raised Python exception: its class together with the message it
was constructed with. -/
structure PyError where
  kind : ExcKind
  msg : String
deriving DecidableEq, Repr

/-- Behaviour of the external WordPress content API for one GET request, as
seen through requests.Session.get in utils/services.py lines 57 to 61: either
a response arrives (with status code, reason phrase, body text, and the decoded
JSON body, of abstract type a), or the request times out
(requests.exceptions.Timeout), or a transport-level failure occurs
(requests.exceptions.RequestException). -/
inductive FetchOutcome (a : Type) where
  | response (status_code : Nat) (reason : String) (text : String) (json : a)
  | timeout
  | transport_error (msg : String)

/-- Message of the exception raised by get_wordpress_api_json for a non-200
response (utils/services.py lines 66 to 73): the Python f-string
interpolates the status code, the reason phrase and the response body text. -/
def status_error_message (status_code : Nat) (reason text : String) : String :=
  "API response: " ++ toString status_code ++ " " ++ reason ++ " - " ++ text

/-- Message of the exception raised by get_wordpress_api_json on a timeout
(utils/services.py lines 76 to 78): interpolates the api_call_timeout
argument. -/
def timeout_message (api_call_timeout : Nat) : String :=
  "API call request timed out after " ++ toString api_call_timeout ++ " seconds!"

/-- Message of the exception raised by get_wordpress_api_json on any other
requests.exceptions.RequestException (utils/services.py lines 80 to 82):
interpolates the URL and the underlying error. -/
def transport_error_message (api_url msg : String) : String :=
  "Error during API call to " ++ api_url ++ ": " ++ msg

/-- Embedding of get_wordpress_api_json (utils/services.py lines 39 to 82).
The network behaviour of the session is the explicit outcome argument. On a
response with status code 200 the decoded JSON body is returned; on any other
status code a plain Exception is raised whose message carries the status code,
reason and body text (this raise is inside the try block, but a plain
Exception matches neither requests.exceptions.Timeout nor
requests.exceptions.RequestException, so it propagates unchanged); a timeout
and any other transport failure are caught and re-raised as plain Exceptions
with the messages built above. -/
def get_wordpress_api_json {a : Type} (outcome : FetchOutcome a)
    (api_url : String) (api_call_timeout : Nat) : Except PyError a :=
  match outcome with
  | FetchOutcome.response status_code reason text json =>
      if status_code = 200 then Except.ok json
      else Except.error ⟨ExcKind.exception, status_error_message status_code reason text⟩
  | FetchOutcome.timeout =>
      Except.error ⟨ExcKind.exception, timeout_message api_call_timeout⟩
  | FetchOutcome.transport_error m =>
      Except.error ⟨ExcKind.exception, transport_error_message api_url m⟩

/-- Modelled from the spec: the chunking step of data_loader
(utils/services.py lines 100 to 109) is performed by the external langchain
classes TextLoader and CharacterTextSplitter configured with chunk_size=1000
and chunk_overlap=0; that library code is not part of this repository, so the
split is modelled from the specification's words: the input is cut into
consecutive fixed-size segments of 1000 characters with no overlap. This is
the character-list worker. -/
def chunkChars (l : List Char) : List (List Char) :=
  if l.isEmpty then []
  else l.take 1000 :: chunkChars (l.drop 1000)
termination_by l.length
decreasing_by
  rename_i h
  simp [List.isEmpty_iff] at h
  have : l.length ≠ 0 := fun hl => h (List.eq_nil_of_length_eq_zero hl)
  simp [List.length_drop]
  omega

/-- Modelled from the spec: the chunk sequence produced for an input text by
the chunking step of data_loader, as a list of chunk contents (see
chunkChars). -/
def split (text : String) : List String :=
  (chunkChars text.data).map String.mk

/-- Embedding of the ManageMemory instance state (utils/memory_management.py
lines 40 to 57): the Redis URL and TTL fixed by the constructor. -/
structure ManageMemory where
  redis_url : String
  redis_timeout : Nat
deriving DecidableEq, Repr

/-- The RedisChatMessageHistory object built inside ManageMemory methods
(utils/memory_management.py lines 78 to 80 and 124 to 126): a langchain
object holding the connection parameters. -/
structure RedisChatMessageHistory where
  url : String
  ttl : Nat
  session_id : String
deriving DecidableEq, Repr

/-- The ConversationBufferWindowMemory object that get_message_from_redis is
documented to return (utils/memory_management.py lines 90 to 95): the
retrieved messages as role/content pairs plus the fixed configuration
memory_key, input_key and window size k. -/
structure ConversationBufferWindowMemory where
  chat_memory : List (String × String)
  memory_key : String
  input_key : String
  k : Nat
deriving DecidableEq, Repr

/-- Semantics of the Python expression json.dumps(message_history) at
utils/memory_management.py line 84: message_history is a
RedisChatMessageHistory instance, which is none of dict, list, tuple, str,
int, float, bool or None, so the default JSON encoder unconditionally raises
TypeError (Object of type RedisChatMessageHistory is not JSON serializable). -/
def json_dumps_history (message_history : RedisChatMessageHistory) :
    Except PyError String :=
  Except.error ⟨ExcKind.typeError,
    "Object of type RedisChatMessageHistory is not JSON serializable"⟩

/-- Modelled from the spec: the langchain deserialization pipeline
json.loads / messages_from_dict / ChatMessageHistory that
get_message_from_redis would apply to the serialized history string
(utils/memory_management.py lines 85 to 87). The pipeline is external
library code and is unreachable in get_message_from_redis, because
json_dumps_history always raises; the model returns the empty message list. -/
def retrieved_messages_model (serialized : String) : List (String × String) :=
  []

/-- Embedding of ManageMemory.get_message_from_redis
(utils/memory_management.py lines 59 to 99). The body builds a
RedisChatMessageHistory, then evaluates json.dumps(message_history), which
raises TypeError (see json_dumps_history); the except-Exception clause catches
it and raises Exception with the fixed message. The success branch, which
would deserialize the dump and wrap it in a ConversationBufferWindowMemory
with k = 4, is unreachable. -/
def get_message_from_redis (m : ManageMemory) (session_id : String) :
    Except PyError ConversationBufferWindowMemory :=
  let message_history : RedisChatMessageHistory :=
    ⟨m.redis_url, m.redis_timeout, session_id⟩
  match json_dumps_history message_history with
  | Except.error _ =>
      Except.error ⟨ExcKind.exception, "Error retrieving messages from Redis"⟩
  | Except.ok retrieve_from_db =>
      Except.ok ⟨retrieved_messages_model retrieve_from_db, "chat_history", "input", 4⟩

/-- One operation performed against the Redis session store by
ManageMemory.add_messages_to_redis: constructing the RedisChatMessageHistory
connection object, appending a user message, appending an AI message. -/
inductive RedisOp where
  | init_history (url : String) (ttl : Nat) (session_id : String)
  | add_user_message (msg : String)
  | add_ai_message (msg : String)
deriving DecidableEq, Repr

/-- Membership test of a key in a Python dict of strings, modelled as an
association list: the Python expression (k in messages). -/
def dict_contains (messages : List (String × String)) (k : String) : Bool :=
  messages.any (fun p => p.1 == k)

/-- Lookup of a key in a Python dict of strings modelled as an association
list: the Python expression messages[k], used only after membership has been
established. -/
def dict_get (messages : List (String × String)) (k : String) : String :=
  match messages.find? (fun p => p.1 == k) with
  | some p => p.2
  | none => ""

/-- Embedding of ManageMemory.add_messages_to_redis
(utils/memory_management.py lines 101 to 140). The messages dict is an
association list; redis_failure injects the behaviour of the external Redis
store (none = the store operations succeed; some m = the langchain/redis calls
raise, which the except clause wraps as Exception with the fixed message; the
trace then records the attempted connection construction). The result is the
raised exception (if any) paired with the trace of store operations
performed. The key check happens before the try block and before any
RedisChatMessageHistory is constructed, so on a missing key the trace is
empty. -/
def add_messages_to_redis (m : ManageMemory) (session_id : String)
    (messages : List (String × String)) (redis_failure : Option String) :
    Option PyError × List RedisOp :=
  if !dict_contains messages "user" || !dict_contains messages "ai_assistant" then
    (some ⟨ExcKind.keyError,
      "Both 'user' and 'ai_assistant' must be specified in messages"⟩, [])
  else
    match redis_failure with
    | some _ =>
        (some ⟨ExcKind.exception, "Error adding messages to Redis"⟩,
         [RedisOp.init_history m.redis_url m.redis_timeout session_id])
    | none =>
        (none,
         [RedisOp.init_history m.redis_url m.redis_timeout session_id,
          RedisOp.add_user_message (dict_get messages "user"),
          RedisOp.add_ai_message (dict_get messages "ai_assistant")])

/-- The HTTP basic-auth credentials extracted by FastAPI's HTTPBasic security
model (utils/middleware.py). -/
structure HTTPBasicCredentials where
  username : String
  password : String
deriving DecidableEq, Repr

/-- A fastapi.HTTPException value: status code and detail message. -/
structure HTTPException where
  status_code : Nat
  detail : String
deriving DecidableEq, Repr

/-- Embedding of basic_auth_middleware (utils/middleware.py lines 46 to 69):
compares the supplied credentials with the hardcoded pair and either returns
True or raises HTTPException(401, "Incorrect email or password"). -/
def basic_auth_middleware (credentials : HTTPBasicCredentials) :
    Except HTTPException Bool :=
  let correct_username := "admin"
  let correct_password := "password"
  if credentials.username == correct_username && credentials.password == correct_password then
    Except.ok true
  else
    Except.error ⟨401, "Incorrect email or password"⟩

/-- Embedding of the UploadRequest pydantic model (utils/models.py lines 10
to 25): collection_name is optional with default None. -/
structure UploadRequest where
  url : String
  create_collection : Bool
  collection_name : Option String
deriving DecidableEq, Repr

/-- Embedding of the UploadResponse pydantic model (utils/models.py lines 28
to 40). -/
structure UploadResponse where
  message : String
  status : String
deriving DecidableEq, Repr

/-- One operation against the Chroma vector store, as performed by data_loader
(utils/services.py lines 111 to 125): the global reset, the get-or-create of
a named collection, and the insertion of one document into a collection. -/
inductive StoreOp where
  | reset
  | get_or_create (name : String)
  | add (collection : String) (doc : String)
deriving DecidableEq, Repr

/-- Outcome of one invocation of the upload_data handler body: a returned
UploadResponse, a raised fastapi.HTTPException, or an exception that escapes
the handler uncaught. -/
inductive HandlerOutcome where
  | returned (response : UploadResponse)
  | http_exception (status_code : Nat) (detail : String)
  | uncaught (e : PyError)
deriving DecidableEq, Repr

/-- The NameError raised when the handler body evaluates the global name
requests: app.py uses requests.Session() (line 147) and
requests.RequestException (line 161) but its module-level imports (app.py
lines 18 to 38) never bind the name requests. -/
def requests_name_error : PyError :=
  ⟨ExcKind.nameError, "name 'requests' is not defined"⟩

/-- Embedding of the upload_data handler (app.py lines 110 to 172), executed
with the verification value produced by the middleware dependency and the
behaviour of the WordPress API as explicit arguments; the result is the
handler outcome paired with the trace of vector-store operations performed.

Every statement of the body sits inside the try block. If verification is
falsy, HTTPException(401, "User not authorized.") is raised inside the try;
handling it evaluates the first except clause, except requests.RequestException,
whose expression raises NameError because app.py never binds the name
requests, and that NameError propagates uncaught (the later except Exception
clause of the same try statement is not consulted once evaluation of an
earlier clause raises). If verification is truthy, the parameter extraction
succeeds and then evaluating requests.Session() (app.py line 147) raises the
same NameError, which the except machinery re-raises identically. So on
every path the handler terminates with an uncaught NameError, before any
fetch is issued and before data_loader, and with it the Chroma reset,
get-or-create and inserts, can run: the store-operation trace is empty. -/
def upload_data {a : Type} (verification : Bool) (request : UploadRequest)
    (wp_api : FetchOutcome a) : HandlerOutcome × List StoreOp :=
  if !verification then
    (HandlerOutcome.uncaught requests_name_error, [])
  else
    (HandlerOutcome.uncaught requests_name_error, [])

/-- Modelled from the spec: the web framework (FastAPI/Starlette request
handling, external to this repository) maps a handler outcome to the HTTP
status code of the surfaced response: a normal return is a 200, a raised
HTTPException keeps its status code, and any other uncaught exception is
surfaced as a 500 response (spec section 6). -/
def surface_status : HandlerOutcome → Nat
  | HandlerOutcome.returned _ => 200
  | HandlerOutcome.http_exception s _ => s
  | HandlerOutcome.uncaught _ => 500

/-! ## Helper lemmas -/

theorem chunkChars_flatten (l : List Char) : (chunkChars l).flatten = l := by
  induction l using chunkChars.induct with
  | case1 l hl => simp [chunkChars, hl, List.isEmpty_iff.mp hl]
  | case2 l hl ih =>
      rw [chunkChars, if_neg hl]
      simp [List.flatten, ih]

theorem chunkChars_length (l : List Char) :
    (chunkChars l).length = (l.length + 999) / 1000 := by
  induction l using chunkChars.induct with
  | case1 l hl => simp [chunkChars, hl, List.isEmpty_iff.mp hl]
  | case2 l hl ih =>
      rw [chunkChars, if_neg hl]
      have hlen : l.length ≠ 0 := by
        intro h0
        exact hl (by simp [List.isEmpty_iff, List.eq_nil_of_length_eq_zero h0])
      simp [ih, List.length_drop]
      omega

theorem chunkChars_chunk_le (l : List Char) : ∀ c ∈ chunkChars l, c.length ≤ 1000 := by
  induction l using chunkChars.induct with
  | case1 l hl => simp [chunkChars, hl]
  | case2 l hl ih =>
      intro c hc
      rw [chunkChars, if_neg hl] at hc
      rcases List.mem_cons.mp hc with h1 | h1
      · simp [h1, List.length_take]
      · exact ih c h1

theorem foldl_append_mk (ls : List (List Char)) (init : List Char) :
    List.foldl (fun r s => r ++ s) (String.mk init) (ls.map String.mk) =
      String.mk (init ++ ls.flatten) := by
  induction ls generalizing init with
  | nil => simp
  | cons c cs ih =>
      simp only [List.map_cons, List.foldl_cons]
      have h1 : String.mk init ++ String.mk c = String.mk (init ++ c) := rfl
      rw [h1, ih]
      simp

theorem string_length_data (s : String) : s.length = s.data.length := rfl

theorem string_ne_of_char_at (i : Nat) (l1 l2 x y : List Char) (a b : String)
    (ha : a.data = l1 ++ x) (hb : b.data = l2 ++ y)
    (h1 : i < l1.length) (h2 : i < l2.length) (hne : l1[i]? ≠ l2[i]?) : a ≠ b := by
  intro h
  apply hne
  calc l1[i]? = (l1 ++ x)[i]? := (List.getElem?_append_left h1).symm
    _ = a.data[i]? := by rw [ha]
    _ = b.data[i]? := by rw [h]
    _ = (l2 ++ y)[i]? := by rw [hb]
    _ = l2[i]? := List.getElem?_append_left h2

theorem timeout_ne_status (t s : Nat) (r b : String) :
    timeout_message t ≠ status_error_message s r b := by
  apply string_ne_of_char_at 4 "API call request timed out after ".data
    "API response: ".data
    ((toString t).data ++ " seconds!".data)
    ((toString s).data ++ " ".data ++ r.data ++ " - ".data ++ b.data)
  · simp [timeout_message, String.data_append, List.append_assoc]
  · simp [status_error_message, String.data_append, List.append_assoc]
  · decide
  · decide
  · decide

theorem timeout_ne_transport (t : Nat) (u m : String) :
    timeout_message t ≠ transport_error_message u m := by
  apply string_ne_of_char_at 0 "API call request timed out after ".data
    "Error during API call to ".data
    ((toString t).data ++ " seconds!".data)
    (u.data ++ ": ".data ++ m.data)
  · simp [timeout_message, String.data_append, List.append_assoc]
  · simp [transport_error_message, String.data_append, List.append_assoc]
  · decide
  · decide
  · decide

/-! ## Claim theorems -/

/-- C1: for every non-empty input text of length L characters, the chunking
step of data_loader splits the text into exactly ceil(L/1000) chunks, each
chunk at most 1000 characters long, and the concatenation of all chunks in
order equals the original text. (The split is modelled from the spec, see
chunkChars.) -/
theorem C1_split_chunks (text : String) (h : text ≠ "") :
    (split text).length = (text.length + 999) / 1000 ∧
    (∀ c ∈ split text, c.length ≤ 1000) ∧
    String.join (split text) = text := by
  refine ⟨?_, ?_, ?_⟩
  · rw [split, List.length_map, chunkChars_length, string_length_data]
  · intro c hc
    rw [split] at hc
    rcases List.mem_map.mp hc with ⟨l, hl, hcl⟩
    rw [← hcl]
    exact chunkChars_chunk_le text.data l hl
  · have h0 : ("" : String) = String.mk [] := rfl
    rw [String.join, split, h0, foldl_append_mk]
    simp [chunkChars_flatten]

/-- Witness for C1 at the concrete text "hello": one chunk of length 5,
joining back to the original. -/
theorem C1_split_chunks_witness :
    (split "hello").length = ("hello".length + 999) / 1000 ∧
    (∀ c ∈ split "hello", c.length ≤ 1000) ∧
    String.join (split "hello") = "hello" :=
  C1_split_chunks "hello" (by decide)

/-- C3: for every call to get_wordpress_api_json receiving a response, a 200
status returns the decoded JSON body without raising; any non-200 status
raises an exception whose message carries the original status code and the
response body text; and it raises if and only if the status is not 200. -/
theorem C3_get_wordpress_api_json_status {a : Type} (status_code : Nat)
    (reason text : String) (json : a) (api_url : String) (api_call_timeout : Nat) :
    (status_code = 200 →
      get_wordpress_api_json (FetchOutcome.response status_code reason text json)
        api_url api_call_timeout = Except.ok json) ∧
    (status_code ≠ 200 →
      get_wordpress_api_json (FetchOutcome.response status_code reason text json)
        api_url api_call_timeout =
        Except.error ⟨ExcKind.exception, status_error_message status_code reason text⟩) ∧
    ((∃ e, get_wordpress_api_json (FetchOutcome.response status_code reason text json)
        api_url api_call_timeout = Except.error e) ↔ status_code ≠ 200) := by
  by_cases h : status_code = 200 <;> simp [get_wordpress_api_json, h]

/-- Witness for C3: a 404 response raises the exception carrying status and
body, and a 200 response returns the decoded body. -/
theorem C3_get_wordpress_api_json_status_witness :
    get_wordpress_api_json (FetchOutcome.response 404 "Not Found" "post not found" (0 : Nat))
      "http://x/api" 600 =
      Except.error ⟨ExcKind.exception, status_error_message 404 "Not Found" "post not found"⟩ ∧
    get_wordpress_api_json (FetchOutcome.response 200 "OK" "body" (7 : Nat))
      "http://x/api" 600 = Except.ok 7 :=
  ⟨(C3_get_wordpress_api_json_status 404 "Not Found" "post not found" (0 : Nat)
      "http://x/api" 600).2.1 (by decide),
   (C3_get_wordpress_api_json_status 200 "OK" "body" (7 : Nat)
      "http://x/api" 600).1 rfl⟩

/-- C9: a timed-out call to get_wordpress_api_json fails with an error whose
message includes the configured api_call_timeout value, and that message is
distinct from every message produced by the non-200 branch and by the generic
transport branch. -/
theorem C9_timeout_error (a : Type) (api_url : String) (api_call_timeout : Nat) :
    get_wordpress_api_json (FetchOutcome.timeout : FetchOutcome a) api_url api_call_timeout =
      Except.error ⟨ExcKind.exception, timeout_message api_call_timeout⟩ ∧
    (∃ pre post, timeout_message api_call_timeout = pre ++ toString api_call_timeout ++ post) ∧
    (∀ s r b, timeout_message api_call_timeout ≠ status_error_message s r b) ∧
    (∀ u m, timeout_message api_call_timeout ≠ transport_error_message u m) :=
  ⟨rfl,
   ⟨"API call request timed out after ", " seconds!", rfl⟩,
   fun s r b => timeout_ne_status api_call_timeout s r b,
   fun u m => timeout_ne_transport api_call_timeout u m⟩

/-- Witness for C9 at timeout 600: the raised message and its distinctness
from a concrete non-200 message and a concrete transport message. -/
theorem C9_timeout_error_witness :
    get_wordpress_api_json (FetchOutcome.timeout : FetchOutcome Nat) "http://x/api" 600 =
      Except.error ⟨ExcKind.exception, timeout_message 600⟩ ∧
    timeout_message 600 ≠ status_error_message 404 "Not Found" "post not found" ∧
    timeout_message 600 ≠ transport_error_message "http://x/api" "connection reset" :=
  ⟨(C9_timeout_error Nat "http://x/api" 600).1,
   (C9_timeout_error Nat "http://x/api" 600).2.2.1 404 "Not Found" "post not found",
   (C9_timeout_error Nat "http://x/api" 600).2.2.2 "http://x/api" "connection reset"⟩

/-- C4 (code bug): get_message_from_redis never returns a conversation
window. For every configured instance and every session identifier, the call
raises the wrapped Exception, because json.dumps applied to the
RedisChatMessageHistory object raises TypeError. The claim says the method
returns the session's bounded window, empty when no history exists. -/
theorem C4_get_message_from_redis_always_fails (m : ManageMemory) (session_id : String) :
    get_message_from_redis m session_id =
      Except.error ⟨ExcKind.exception, "Error retrieving messages from Redis"⟩ :=
  rfl

/-- C5: add_messages_to_redis raises the KeyError if and only if the messages
dict lacks the user key or the ai_assistant key, and when it does, it does so
before any session-store operation (the RedisChatMessageHistory connection
object is not even constructed: the operation trace is empty). -/
theorem C5_add_messages_key_check (m : ManageMemory) (session_id : String)
    (messages : List (String × String)) (redis_failure : Option String) :
    ((add_messages_to_redis m session_id messages redis_failure).1 =
        some ⟨ExcKind.keyError,
          "Both 'user' and 'ai_assistant' must be specified in messages"⟩ ↔
      (dict_contains messages "user" = false ∨
        dict_contains messages "ai_assistant" = false)) ∧
    ((dict_contains messages "user" = false ∨
        dict_contains messages "ai_assistant" = false) →
      add_messages_to_redis m session_id messages redis_failure =
        (some ⟨ExcKind.keyError,
          "Both 'user' and 'ai_assistant' must be specified in messages"⟩, [])) := by
  cases hu : dict_contains messages "user" <;>
    cases ha : dict_contains messages "ai_assistant" <;>
      cases redis_failure <;>
        simp [add_messages_to_redis, hu, ha]

/-- Witness for C5: a messages dict missing the ai_assistant key makes the
call fail with the KeyError and an empty operation trace. -/
theorem C5_add_messages_key_check_witness :
    add_messages_to_redis ⟨"http://localhost:6379", 600⟩ "session-1"
        [("user", "hi")] none =
      (some ⟨ExcKind.keyError,
        "Both 'user' and 'ai_assistant' must be specified in messages"⟩, []) :=
  (C5_add_messages_key_check ⟨"http://localhost:6379", 600⟩ "session-1"
    [("user", "hi")] none).2 (Or.inr (by decide))

/-- C8 counterexample: for the wrong credential pair (admin, hunter2) the
middleware does raise the 401 with the fixed detail, but that detail contains
the correct password (the literal string password) as a substring, refuting
the claim that the detail contains neither correct credential. -/
theorem C8_counterexample :
    basic_auth_middleware ⟨"admin", "hunter2"⟩ =
      Except.error ⟨401, "Incorrect email or password"⟩ ∧
    "password".data <:+: "Incorrect email or password".data := by
  refine ⟨rfl, ?_⟩
  exact ⟨"Incorrect email or ".data, [], by decide⟩

/-- C8 (amended): every request whose username/password pair is not the
correct one fails with a 401 whose detail is the constant string
"Incorrect email or password", independent of the supplied credentials, and
that detail does not contain the correct username admin; it does however
contain the correct password as a substring (see the counterexample). -/
theorem C8_auth_error_constant (credentials : HTTPBasicCredentials)
    (h : ¬(credentials.username = "admin" ∧ credentials.password = "password")) :
    basic_auth_middleware credentials =
      Except.error ⟨401, "Incorrect email or password"⟩ ∧
    ¬ ("admin".data <:+: "Incorrect email or password".data) := by
  refine ⟨?_, by decide⟩
  by_cases h1 : credentials.username = "admin" <;>
    by_cases h2 : credentials.password = "password"
  · exact absurd ⟨h1, h2⟩ h
  all_goals simp [basic_auth_middleware, beq_iff_eq, h1, h2]

/-- Witness for C8 (amended) at the concrete wrong pair (alice, secret). -/
theorem C8_auth_error_constant_witness :
    basic_auth_middleware ⟨"alice", "secret"⟩ =
      Except.error ⟨401, "Incorrect email or password"⟩ ∧
    ¬ ("admin".data <:+: "Incorrect email or password".data) :=
  C8_auth_error_constant ⟨"alice", "secret"⟩ (by decide)

/-- C2 (code bug): an authorized upload request whose content fetch would
answer HTTP 404 does not produce the 500 HTTPException whose detail mentions
the fetch failure: the handler dies earlier with the uncaught NameError on
the unbound name requests, which the framework surfaces as a bare 500. The
no-mutation half of the claim does hold: the store-operation trace is empty,
in particular no reset is performed. -/
theorem C2_upload_fetch_failure_bug :
    upload_data true ⟨"http://x/api", true, none⟩
        (FetchOutcome.response 404 "Not Found" "post not found" "unused body") =
      (HandlerOutcome.uncaught requests_name_error, []) ∧
    surface_status (upload_data true (⟨"http://x/api", true, none⟩ : UploadRequest)
        (FetchOutcome.response 404 "Not Found" "post not found" "unused body")).1 = 500 ∧
    StoreOp.reset ∉ (upload_data true (⟨"http://x/api", true, none⟩ : UploadRequest)
        (FetchOutcome.response 404 "Not Found" "post not found" "unused body")).2 := by
  refine ⟨rfl, rfl, by simp [upload_data]⟩

/-- C7 (code bug): even for an authorized upload request with
collection_name unset and an API answering 200 with 2500 characters of
content, the handler ends in the uncaught NameError with an empty
store-operation trace: no chunk is ever inserted into Default_Collection and
the success response is unreachable. -/
theorem C7_upload_success_unreachable_bug :
    upload_data true ⟨"http://x/api", true, none⟩
        (FetchOutcome.response 200 "OK" "raw body"
          (String.mk (List.replicate 2500 'A'))) =
      (HandlerOutcome.uncaught requests_name_error, []) :=
  rfl

/-- C6 counterexample: a concrete authorized upload run performs an empty
sequence of store operations; in particular the sequence does not include the
unconditional reset the claim says it includes. -/
theorem C6_counterexample :
    (upload_data true ⟨"http://x/api", true, some "col"⟩
        (FetchOutcome.response 200 "OK" "body" "content")).2 = [] ∧
    StoreOp.reset ∉ (upload_data true (⟨"http://x/api", true, some "col"⟩ : UploadRequest)
        (FetchOutcome.response 200 "OK" "body" "content")).2 := by
  refine ⟨rfl, by simp [upload_data]⟩

/-- C6 (amended): the create_collection flag is never consulted: two upload
requests identical in url and collection_name and run against the same
external API behaviour produce identical outcomes and identical (in fact
empty) store-operation traces, whatever their create_collection values. -/
theorem C6_create_collection_ignored {a : Type} (verification : Bool)
    (r1 r2 : UploadRequest) (w : FetchOutcome a)
    (hurl : r1.url = r2.url) (hname : r1.collection_name = r2.collection_name) :
    upload_data verification r1 w = upload_data verification r2 w := by
  cases verification <;> rfl

/-- Witness for C6 (amended): two concrete requests differing only in
create_collection give identical results. -/
theorem C6_create_collection_ignored_witness :
    upload_data true ⟨"http://x/api", true, some "col"⟩
        (FetchOutcome.response 200 "OK" "ok body" (5 : Nat)) =
      upload_data true ⟨"http://x/api", false, some "col"⟩
        (FetchOutcome.response 200 "OK" "ok body" (5 : Nat)) :=
  C6_create_collection_ignored true ⟨"http://x/api", true, some "col"⟩
    ⟨"http://x/api", false, some "col"⟩
    (FetchOutcome.response 200 "OK" "ok body" (5 : Nat)) rfl rfl

/-- C10: basic_auth_middleware either returns True or raises the 401, and
never returns any other value, so a request reaching the upload handler body
has verification True; the handler then never produces its internal
401 User-not-authorized HTTPException, and an exception escaping the handler
body surfaces as a 500 response. -/
theorem C10_verification_always_true :
    (∀ credentials, basic_auth_middleware credentials = Except.ok true ∨
      basic_auth_middleware credentials =
        Except.error ⟨401, "Incorrect email or password"⟩) ∧
    (∀ credentials v, basic_auth_middleware credentials = Except.ok v → v = true) ∧
    (∀ (request : UploadRequest) (w : FetchOutcome String),
      (upload_data true request w).1 ≠
        HandlerOutcome.http_exception 401 "User not authorized.") ∧
    (∀ (request : UploadRequest) (w : FetchOutcome String) (e : PyError),
      (upload_data true request w).1 = HandlerOutcome.uncaught e →
        surface_status (upload_data true request w).1 = 500) := by
  refine ⟨?_, ?_, ?_, ?_⟩
  · intro credentials
    rw [basic_auth_middleware]
    by_cases h : (credentials.username == "admin" &&
        credentials.password == "password") = true
    · rw [if_pos h]; exact Or.inl rfl
    · rw [if_neg h]; exact Or.inr rfl
  · intro credentials v h
    rw [basic_auth_middleware] at h
    split at h
    · cases h; rfl
    · simp at h
  · intro request w
    simp [upload_data]
  · intro request w e h
    simp [upload_data, surface_status]

/-- Witness for C10: the correct pair is accepted (left disjunct), and a
concrete authorized run whose body raises surfaces as a 500. -/
theorem C10_verification_always_true_witness :
    (basic_auth_middleware ⟨"admin", "password"⟩ = Except.ok true ∨
      basic_auth_middleware ⟨"admin", "password"⟩ =
        Except.error ⟨401, "Incorrect email or password"⟩) ∧
    surface_status (upload_data true (⟨"http://x/api", true, none⟩ : UploadRequest)
        (FetchOutcome.timeout : FetchOutcome String)).1 = 500 :=
  ⟨C10_verification_always_true.1 ⟨"admin", "password"⟩,
   C10_verification_always_true.2.2.2 ⟨"http://x/api", true, none⟩
     (FetchOutcome.timeout : FetchOutcome String) requests_name_error rfl⟩
